import Mathlib

/-!
Shallow embedding of `src/app/app.py` (flask-monitoring-stack): a Flask app
with three routes (`/health`, `/`, `/metrics`).  Handlers are pure
functions of their external inputs (the wall clock and the psutil sampler
outcome); the Flask/Werkzeug dispatch layer around them is modelled from
its documented behavior where the spec describes it (404 for unknown
paths, 500 for an uncaught sampler exception, default methods of a bare
`@app.route` rule).
-/

namespace MonitoredService

/-- HTTP request methods relevant to the routes under consideration. -/
inductive Method
  | get
  | head
  | options
  | post
  | put
  | delete
  | patch
deriving DecidableEq, Repr

/-- An inbound HTTP request: method and path (the app accepts no bodies or
query parameters). -/
structure Request where
  method : Method
  path : String
deriving DecidableEq, Repr

/-- JSON values as produced by `flask.jsonify` for the health body: strings
and numbers.  Python floats are modelled as rationals. -/
inductive JVal
  | str (s : String)
  | num (q : ℚ)
deriving DecidableEq, Repr

/-- A response body: plain text, or a JSON object given as an ordered list
of key/value fields. -/
inductive Body
  | text (s : String)
  | json (fields : List (String × JVal))
deriving DecidableEq, Repr

/-- An HTTP response: status code, Content-Type header, body. -/
structure Response where
  status : ℕ
  contentType : String
  body : Body
deriving DecidableEq, Repr

/-- One reading of the OS-stats sampler: `psutil.cpu_percent(interval=1)`
and `psutil.virtual_memory().percent` (app.py lines 23 and 24). -/
structure SystemStats where
  cpu_percent : ℚ
  memory_percent : ℚ
deriving DecidableEq, Repr

/-- The external inputs one request handling observes: the wall clock read
by `time.time()` and the outcome of the psutil sampler calls — a reading,
or `Except.error` when psutil raises while reading system counters. -/
structure Externals where
  now : ℚ
  sampler : Except Unit SystemStats

/-- The `health` view (app.py lines 8 to 13):
`jsonify({"status": "healthy", "timestamp": time.time()}), 200`.
`flask.jsonify` responds with Content-Type application/json; the current
wall clock is passed in as `now`. -/
def health (now : ℚ) : Response :=
  { status := 200
    contentType := "application/json"
    body := Body.json [("status", JVal.str "healthy"), ("timestamp", JVal.num now)] }

/-- The greeting literal returned by the `home` view (app.py line 18). -/
def greeting : String := "Hello! I\x27m a simple monitored service! 👋"

/-- The `home` view (app.py lines 16 to 18): returns the bare greeting
string, which Flask wraps as a 200 response with its default text/html
content type. -/
def home : Response :=
  { status := 200
    contentType := "text/html"
    body := Body.text greeting }

/-- The lines of the f-string template at app.py lines 26 to 37, in source
order.  The two interior `""` entries are the template's blank separator
lines and the final `""` reflects the trailing newline; `{cpu_percent}`
and `{memory.percent}` are the interpolated sampler readings. -/
def metricsBodyLines (cpu mem : ℚ) : List String :=
  [ "# HELP cpu_usage_percent Current CPU usage"
  , "# TYPE cpu_usage_percent gauge"
  , "cpu_usage_percent " ++ toString cpu
  , ""
  , "# HELP memory_usage_percent Current memory usage"
  , "# TYPE memory_usage_percent gauge"
  , "memory_usage_percent " ++ toString mem
  , ""
  , "# HELP app_up Application is running"
  , "# TYPE app_up gauge"
  , "app_up 1"
  , "" ]

/-- The body string of a successful `/metrics` response: the template
lines joined by newlines (equal to the f-string of app.py lines 26-37). -/
def metricsBody (cpu mem : ℚ) : String :=
  String.intercalate "\n" (metricsBodyLines cpu mem)

/-- Flask's default page for an uncaught exception in a view.  Modelled
from the spec: the source has no try/except, so a psutil failure is
"surfaced as HTTP 500 by the hosting server's default fault handling"
(spec section 7); the error page's own text is not constrained. -/
def internalServerError : Response :=
  { status := 500, contentType := "text/html", body := Body.text "Internal Server Error" }

/-- Werkzeug's response for a path matching no registered rule.  Modelled
from the spec: "Unknown paths (e.g., /does-not-exist) return HTTP 404"
(spec section 8). -/
def notFound : Response :=
  { status := 404, contentType := "text/html", body := Body.text "Not Found" }

/-- Werkzeug's response for a registered path requested with a method the
rule does not allow, per Flask's documented routing defaults. -/
def methodNotAllowed : Response :=
  { status := 405, contentType := "text/html", body := Body.text "Method Not Allowed" }

/-- Flask's automatic answer to an OPTIONS request on a registered rule,
produced by the framework without running the view. -/
def automaticOptions : Response :=
  { status := 200, contentType := "text/html", body := Body.text "" }

/-- The `metrics` view (app.py lines 21 to 38) as a function of the psutil
sample.  A successful sample yields the f-string body with status 200 and
the explicit `{'Content-Type': 'text/plain'}` header; a psutil exception
propagates out of the view and the framework's default fault handling
turns it into the 500 response (spec section 7). -/
def metrics (sample : Except Unit SystemStats) : Response :=
  match sample with
  | Except.ok s =>
      { status := 200
        contentType := "text/plain"
        body := Body.text (metricsBody s.cpu_percent s.memory_percent) }
  | Except.error _ => internalServerError

/-- The process-wide mutable state of app.py: the single module-level
Flask object, whose only contents relevant to requests is the route table
built by the three decorators at import time.  No handler assigns to it. -/
structure AppState where
  routePaths : List String
deriving DecidableEq, Repr

/-- The state after startup: the three `@app.route` decorators have
registered `/health`, `/` and `/metrics`. -/
def initState : AppState :=
  { routePaths := ["/health", "/", "/metrics"] }

/-- View lookup for a registered path: the decorators bind `/health`,
`/` and `/metrics` to `health`, `home` and `metrics` respectively. -/
def invoke (path : String) (ext : Externals) : Response :=
  if path = "/health" then health ext.now
  else if path = "/" then home
  else metrics ext.sampler

/-- One request/response cycle.  The routing around the views is modelled
from the spec and Flask's documented defaults: an unregistered path gets
404; a bare `@app.route(rule)` accepts GET, with HEAD and OPTIONS added
automatically by the framework (OPTIONS answered without running the
view, HEAD served from the GET view with the body stripped on the wire),
and every other method gets 405.  The views assign no global, so the
state comes back unchanged. -/
def dispatch (σ : AppState) (req : Request) (ext : Externals) : Response × AppState :=
  if req.path ∈ σ.routePaths then
    match req.method with
    | Method.get => (invoke req.path ext, σ)
    | Method.head => (invoke req.path ext, σ)
    | Method.options => (automaticOptions, σ)
    | _ => (methodNotAllowed, σ)
  else (notFound, σ)

/-- The request-per-connection serving loop, threading the process state
through successive requests. -/
def serve (σ : AppState) : List (Request × Externals) → List Response
  | [] => []
  | p :: rest =>
      let r := dispatch σ p.1 p.2
      r.1 :: serve r.2 rest

/-- The sampling window passed at app.py line 23:
`psutil.cpu_percent(interval=1)`. -/
def cpuSampleInterval : ℚ := 1

/-- Wall-clock durations of one `/metrics` handling: the blocking
`cpu_percent(interval=1)` call of line 23, and the rest of the handler's
work (line 24 onwards plus response construction). -/
structure Timing where
  sampleElapsed : ℚ
  restElapsed : ℚ

/-- The psutil contract for a blocking sample: `cpu_percent(interval)`
compares CPU times across a sleep of `interval` seconds, so the call
takes at least the interval; the rest of the handler takes nonnegative
time. -/
def Timing.Honors (t : Timing) : Prop :=
  cpuSampleInterval ≤ t.sampleElapsed ∧ 0 ≤ t.restElapsed

/-- Clocked run of the `metrics` view: the response together with the
wall-clock time at which the handler returns, starting from `start`. -/
def metricsTimed (start : ℚ) (sample : Except Unit SystemStats) (t : Timing) :
    Response × ℚ :=
  (metrics sample, start + t.sampleElapsed + t.restElapsed)

/-- One metric family of the text exposition format as the spec words it:
a `# HELP` line, a `# TYPE <name> gauge` line, and one sample line. -/
def familyBlock (name help sample : String) : List String :=
  ["# HELP " ++ name ++ " " ++ help, "# TYPE " ++ name ++ " gauge", sample]

/-- Helper: dispatching never changes the process state. -/
theorem dispatch_state (σ : AppState) (req : Request) (ext : Externals) :
    (dispatch σ req ext).2 = σ := by
  unfold dispatch
  by_cases h : req.path ∈ σ.routePaths
  · simp only [if_pos h]
    cases req.method <;> rfl
  · simp only [if_neg h]

/-- C1: a call to GET /metrics whose sampler read succeeds returns HTTP
status 200 with Content-Type text/plain, and its body is exactly three
metric families in the fixed order cpu_usage_percent,
memory_usage_percent, app_up, each one a HELP line, a TYPE gauge
line and one sample line. -/
theorem metrics_success_shape (ext : Externals) (s : SystemStats)
    (h : ext.sampler = Except.ok s) :
    (dispatch initState { method := Method.get, path := "/metrics" } ext).1 =
      { status := 200
        contentType := "text/plain"
        body := Body.text (metricsBody s.cpu_percent s.memory_percent) } ∧
    metricsBodyLines s.cpu_percent s.memory_percent =
      familyBlock "cpu_usage_percent" "Current CPU usage"
          ("cpu_usage_percent " ++ toString s.cpu_percent)
        ++ [""]
        ++ familyBlock "memory_usage_percent" "Current memory usage"
          ("memory_usage_percent " ++ toString s.memory_percent)
        ++ [""]
        ++ familyBlock "app_up" "Application is running" "app_up 1"
        ++ [""] := by
  constructor
  · simp [dispatch, initState, invoke, metrics, h]
  · simp [metricsBodyLines, familyBlock]

/-- Witness for C1 at a concrete sampler reading. -/
theorem metrics_success_shape_witness :
    (dispatch initState { method := Method.get, path := "/metrics" }
        { now := 0, sampler := Except.ok { cpu_percent := 25, memory_percent := 40 } }).1 =
      { status := 200
        contentType := "text/plain"
        body := Body.text (metricsBody 25 40) } :=
  (metrics_success_shape _ { cpu_percent := 25, memory_percent := 40 } rfl).1

/-- C2: a call to GET /health returns HTTP 200 and a JSON body with
exactly the fields status and timestamp, where status is the string
"healthy" and timestamp is the wall-clock value read at the moment of
handling. -/
theorem health_response (ext : Externals) :
    (dispatch initState { method := Method.get, path := "/health" } ext).1 =
      { status := 200
        contentType := "application/json"
        body := Body.json
          [("status", JVal.str "healthy"), ("timestamp", JVal.num ext.now)] } := by
  rfl

/-- C3: when the sampler fails, GET /metrics yields HTTP 500 — the
framework error response, never a 200 with fabricated values. -/
theorem metrics_failure_500 (ext : Externals) (e : Unit)
    (h : ext.sampler = Except.error e) :
    (dispatch initState { method := Method.get, path := "/metrics" } ext).1 =
      internalServerError ∧
    (dispatch initState { method := Method.get, path := "/metrics" } ext).1.status = 500 ∧
    (dispatch initState { method := Method.get, path := "/metrics" } ext).1.status ≠ 200 := by
  refine ⟨?_, ?_, ?_⟩ <;>
    simp [dispatch, initState, invoke, metrics, h, internalServerError]

/-- Witness for C3 with a concrete failing sampler. -/
theorem metrics_failure_500_witness :
    (dispatch initState { method := Method.get, path := "/metrics" }
        { now := 0, sampler := Except.error () }).1.status = 500 :=
  (metrics_failure_500 { now := 0, sampler := Except.error () } () rfl).2.1

/-- C4: a successful /metrics handling blocks through the 1-second CPU
sampling window of cpu_percent(interval=1), so the handler's finish time
is at least 1 second after its start. -/
theorem metrics_blocks_full_interval (start : ℚ) (sample : Except Unit SystemStats)
    (t : Timing) (h : t.Honors) :
    1 ≤ (metricsTimed start sample t).2 - start := by
  obtain ⟨h1, h2⟩ := h
  unfold cpuSampleInterval at h1
  simp only [metricsTimed]
  linarith

/-- Witness for C4 at a concrete timing honoring the psutil contract. -/
theorem metrics_blocks_full_interval_witness :
    1 ≤ (metricsTimed 0 (Except.ok { cpu_percent := 0, memory_percent := 0 })
        { sampleElapsed := 1, restElapsed := 0 }).2 - 0 :=
  metrics_blocks_full_interval 0 _ _ ⟨by norm_num [cpuSampleInterval], by norm_num⟩

/-- C5: the handler interpolates the sampler readings into the two sample
lines unchanged, so whenever the readings lie in [0, 100] (psutil's
documented range, as the spec's data model records), the values rendered
on the cpu_usage_percent and memory_usage_percent lines lie in [0, 100]. -/
theorem metrics_values_in_range (ext : Externals) (s : SystemStats)
    (hs : ext.sampler = Except.ok s)
    (hc0 : 0 ≤ s.cpu_percent) (hc1 : s.cpu_percent ≤ 100)
    (hm0 : 0 ≤ s.memory_percent) (hm1 : s.memory_percent ≤ 100) :
    ∃ bl, (dispatch initState { method := Method.get, path := "/metrics" } ext).1.body =
        Body.text (String.intercalate "\n" bl) ∧
      ∃ v w : ℚ, bl[2]? = some ("cpu_usage_percent " ++ toString v) ∧
        0 ≤ v ∧ v ≤ 100 ∧
        bl[6]? = some ("memory_usage_percent " ++ toString w) ∧
        0 ≤ w ∧ w ≤ 100 := by
  refine ⟨metricsBodyLines s.cpu_percent s.memory_percent, ?_,
    s.cpu_percent, s.memory_percent, rfl, hc0, hc1, rfl, hm0, hm1⟩
  simp [dispatch, initState, invoke, metrics, hs, metricsBody]

/-- Witness for C5 at a concrete in-range sampler reading. -/
theorem metrics_values_in_range_witness :
    ∃ bl, (dispatch initState { method := Method.get, path := "/metrics" }
        { now := 0, sampler := Except.ok { cpu_percent := 50, memory_percent := 60 } }).1.body =
        Body.text (String.intercalate "\n" bl) ∧
      ∃ v w : ℚ, bl[2]? = some ("cpu_usage_percent " ++ toString v) ∧
        0 ≤ v ∧ v ≤ 100 ∧
        bl[6]? = some ("memory_usage_percent " ++ toString w) ∧
        0 ≤ w ∧ w ≤ 100 :=
  metrics_values_in_range _ _ rfl (by norm_num) (by norm_num) (by norm_num) (by norm_num)

/-- C6: whatever the sampler reads — so also across repeated calls with
different readings — a successful GET /metrics body carries the sample
line "app_up 1", the literal of app.py line 36. -/
theorem metrics_app_up_always_one (now : ℚ) (s : SystemStats) :
    ∃ bl, (dispatch initState { method := Method.get, path := "/metrics" }
        { now := now, sampler := Except.ok s }).1.body =
        Body.text (String.intercalate "\n" bl) ∧
      bl[10]? = some "app_up 1" := by
  refine ⟨metricsBodyLines s.cpu_percent s.memory_percent, ?_, rfl⟩
  simp [dispatch, initState, invoke, metrics, metricsBody]

/-- C7: a call to GET / returns HTTP 200 and a non-empty text body
carrying the fixed greeting string, with no error condition. -/
theorem home_response (ext : Externals) :
    (dispatch initState { method := Method.get, path := "/" } ext).1 = home ∧
    home.status = 200 ∧ home.body = Body.text greeting ∧ greeting ≠ "" :=
  ⟨rfl, rfl, rfl, by decide⟩

/-- C8: no handler writes any shared state — dispatching returns the
process state unchanged, and a served request sequence produces exactly
the responses each request would get on its own from the initial state,
independent of the requests before it. -/
theorem handlers_stateless (σ : AppState) (reqs : List (Request × Externals)) :
    (∀ req ext, (dispatch σ req ext).2 = σ) ∧
    serve σ reqs = reqs.map fun p => (dispatch σ p.1 p.2).1 := by
  refine ⟨fun req ext => dispatch_state σ req ext, ?_⟩
  induction reqs with
  | nil => rfl
  | cons p rest ih =>
      simp only [serve, List.map_cons, dispatch_state]
      exact congrArg _ ih

/-- C9: a GET request for any path other than the three registered ones
is answered with HTTP 404. -/
theorem unknown_path_404 (req : Request) (ext : Externals)
    (_hm : req.method = Method.get) (hp : req.path ∉ initState.routePaths) :
    (dispatch initState req ext).1 = notFound ∧
    (dispatch initState req ext).1.status = 404 := by
  rw [dispatch, if_neg hp]
  exact ⟨rfl, rfl⟩

/-- Witness for C9 at the path /does-not-exist. -/
theorem unknown_path_404_witness :
    (dispatch initState { method := Method.get, path := "/does-not-exist" }
        { now := 0, sampler := Except.ok { cpu_percent := 0, memory_percent := 0 } }).1.status
      = 404 :=
  (unknown_path_404 _ _ rfl (by decide)).2

/-- C10 counterexample: an OPTIONS request to /health is answered by the
framework's automatic OPTIONS handling with status 200, not 405, so not
every non-GET method is rejected. -/
theorem options_health_not_405 :
    (dispatch initState { method := Method.options, path := "/health" }
        { now := 0, sampler := Except.ok { cpu_percent := 0, memory_percent := 0 } }).1.status
        = 200 ∧
    (dispatch initState { method := Method.options, path := "/health" }
        { now := 0, sampler := Except.ok { cpu_percent := 0, memory_percent := 0 } }).1.status
        ≠ 405 := by
  constructor <;> decide

/-- C10 amended: a request to a registered path with a method other than
GET, HEAD and OPTIONS (POST, PUT, DELETE, PATCH) is rejected with HTTP
405 and no view runs: the response is the constant framework error page,
the same for every external input. -/
theorem non_get_method_405 (req : Request) (ext : Externals)
    (hp : req.path ∈ initState.routePaths)
    (hm : req.method = Method.post ∨ req.method = Method.put ∨
      req.method = Method.delete ∨ req.method = Method.patch) :
    (dispatch initState req ext).1 = methodNotAllowed ∧
    (dispatch initState req ext).1.status = 405 := by
  rw [dispatch, if_pos hp]
  rcases hm with h | h | h | h <;> rw [h] <;> exact ⟨rfl, rfl⟩

/-- Witness for C10's amended claim: POST /health gets 405. -/
theorem non_get_method_405_witness :
    (dispatch initState { method := Method.post, path := "/health" }
        { now := 0, sampler := Except.ok { cpu_percent := 0, memory_percent := 0 } }).1.status
      = 405 :=
  (non_get_method_405 _ _ (by decide) (Or.inl rfl)).2

end MonitoredService
